import Mathlib

/-!
Verification of the barista-ai portfolio risk-analytics engine.

This file is a shallow embedding of the risk-metric functions of
`src/utils/calculations.py` and of the portfolio aggregation, risk summary
and risk-level classification of `src/agents/risk_analyzer.py`.

Modelling conventions:
* Python/numpy floats are modelled as rationals (`ℚ`).  Where the source
  produces NaN or infinities as *values* (numpy scalar arithmetic), the
  inductive `FloatQ` mirrors IEEE nan/±inf together with Python's
  comparison and truthiness semantics on them.
* Functions whose result can be the float NaN are `Option`-valued, with
  `none` standing for NaN, unless they use `FloatQ` directly.
* Square roots (`np.std` takes one) land in `ℝ` via `Real.sqrt`; every
  branch decision in the embedded code happens on `ℚ` except where the
  source itself compares a float standard deviation with zero.
* Exceptions raised by plain Python arithmetic (`float / 0.0` raises
  `ZeroDivisionError`) are modelled with `Except Unit`; a numpy scalar
  division by zero instead yields nan/±inf values (`npdiv`).
* The Monte-Carlo VaR draws its samples from `np.random`; the sampled
  list is modelled as an explicit `draws` parameter.  The inverse normal
  CDF `scipy.stats.norm.ppf` has no closed form and is modelled as an
  explicit function parameter `ppf`.
-/

/-- Mean of a list of rationals; `np.mean` / `pandas.Series.mean` give NaN
(`none`) on an empty input. -/
def listMean (xs : List ℚ) : Option ℚ :=
  if xs = [] then none else some (xs.sum / xs.length)

/-- Sum of squared deviations from the mean (the numerator of the variance
computed by `np.std`). -/
def ssd (xs : List ℚ) : ℚ :=
  (xs.map (fun x => (x - xs.sum / xs.length) ^ 2)).sum

/-- Population variance (ddof = 0).  `np.std(series)` delegates to
`pandas.Series.std(ddof=0)`, i.e. it divides the squared deviations by `n`,
not `n - 1`, before taking the square root. -/
def var0 (xs : List ℚ) : ℚ := ssd xs / xs.length

/-- `calculate_volatility` (calculations.py line 11): `np.std(price_series)`,
the population (ddof = 0) standard deviation; NaN (`none`) on an empty
series. -/
noncomputable def calculate_volatility (xs : List ℚ) : Option ℝ :=
  if xs = [] then none else some (Real.sqrt ((var0 xs : ℚ) : ℝ))

/-- Linear interpolation step of `np.percentile` (default method) on an
already sorted list `s` at fractional rank `rank`. -/
def pinterp (s : List ℚ) (rank : ℚ) : ℚ :=
  s.getD ⌊rank⌋.toNat 0 +
    (rank - (⌊rank⌋.toNat : ℚ)) *
      (s.getD (⌊rank⌋.toNat + 1) (s.getD ⌊rank⌋.toNat 0) - s.getD ⌊rank⌋.toNat 0)

/-- `np.percentile(xs, p)` with the default linear interpolation: sort, take
rank `p/100 * (n-1)`, interpolate between the two neighbouring order
statistics.  `none` on an empty input. -/
def percentile (xs : List ℚ) (p : ℚ) : Option ℚ :=
  if xs = [] then none
  else some (pinterp (xs.insertionSort (fun a b => a ≤ b)) (p / 100 * ((xs.length : ℚ) - 1)))

/-- `calculate_var_historical` (calculations.py line 20):
`np.percentile(price_series, (1 - confidence_level) * 100)`. -/
def calculate_var_historical (xs : List ℚ) (confidence_level : ℚ) : Option ℚ :=
  percentile xs ((1 - confidence_level) * 100)

/-- `calculate_cvar` (calculations.py lines 27-30): mean of the elements at
or below the historical VaR threshold; NaN (`none`) when that selection is
empty. -/
def calculate_cvar (xs : List ℚ) (confidence_level : ℚ) : Option ℚ :=
  match calculate_var_historical xs confidence_level with
  | none => none
  | some v => listMean (xs.filter (fun x => decide (x ≤ v)))

/-- `calculate_var_monte_carlo` (calculations.py line 23):
percentile of normal samples; the random samples are modelled as the
explicit `draws` parameter. -/
def calculate_var_monte_carlo (draws : List ℚ) (confidence_level : ℚ) : Option ℚ :=
  percentile draws ((1 - confidence_level) * 100)

/-- `calculate_var_parametric` (calculations.py line 14):
`mean - sigma * norm.ppf(confidence)`; `ppf` is the inverse normal CDF,
modelled as a parameter. -/
noncomputable def calculate_var_parametric (ppf : ℚ → ℝ) (xs : List ℚ) (confidence_level : ℚ) :
    Option ℝ :=
  match listMean xs with
  | none => none
  | some m => some ((m : ℝ) - Real.sqrt ((var0 xs : ℚ) : ℝ) * ppf confidence_level)

/-- `calculate_sharpe_ratio` (calculations.py line 32): excess mean over the
standard deviation; the source returns NaN when the volatility is zero, and
an empty series makes every intermediate NaN. -/
noncomputable def calculate_sharpe_ratio (xs : List ℚ) (risk_free_rate : ℚ) : Option ℝ :=
  match listMean xs with
  | none => none
  | some m =>
    if Real.sqrt ((var0 xs : ℚ) : ℝ) = 0 then none
    else some (((m - risk_free_rate : ℚ) : ℝ) / Real.sqrt ((var0 xs : ℚ) : ℝ))

/-- Rational model of the reachable numpy float scalars: finite values plus
nan and the two infinities produced by numpy scalar division by zero. -/
inductive FloatQ where
  | nan
  | pinf
  | ninf
  | val (q : ℚ)
  deriving DecidableEq, Repr

/-- Python `>` on floats: any comparison involving nan is `False`. -/
def pygt : FloatQ → FloatQ → Bool
  | .nan, _ => false
  | _, .nan => false
  | .pinf, .pinf => false
  | .pinf, _ => true
  | .ninf, _ => false
  | .val _, .pinf => false
  | .val _, .ninf => true
  | .val a, .val b => decide (b < a)

/-- Python `<` on floats. -/
def pylt (a b : FloatQ) : Bool := pygt b a

/-- Python's two-argument `max`: returns the second argument only when it is
strictly greater (so nan is never selected over a number). -/
def pymax (a b : FloatQ) : FloatQ := if pygt b a then b else a

/-- Python truthiness of a float: `0.0` is falsy, every other float
(including nan and the infinities) is truthy. -/
def pytruthy : FloatQ → Bool
  | .val q => decide (q ≠ 0)
  | _ => true

/-- numpy scalar true division of finite values: division by zero emits a
RuntimeWarning and yields nan (0/0) or a signed infinity, never an
exception. -/
def npdiv (num den : ℚ) : FloatQ :=
  if den = 0 then (if num = 0 then .nan else if 0 < num then .pinf else .ninf)
  else .val (num / den)

/-- Real-valued analogue of `FloatQ` for metrics whose finite values involve
square roots. -/
inductive FloatR where
  | nan
  | pinf
  | ninf
  | val (x : ℝ)

/-- `calculate_sortino_ratio` (calculations.py line 44): downside deviation
ratio.  An empty downside makes every intermediate NaN; a zero downside mean
short-circuits to NaN; a zero downside deviation divides a numpy scalar by
zero, giving nan or a signed infinity. -/
noncomputable def calculate_sortino_ratio (xs : List ℚ) (target_return : ℚ) : FloatR :=
  match listMean (xs.filter (fun x => decide (x < target_return))) with
  | none => .nan
  | some m =>
    if m = 0 then .nan
    else
      match listMean xs with
      | none => .nan
      | some mx =>
        if Real.sqrt ((var0 (xs.filter (fun x => decide (x < target_return))) : ℚ) : ℝ) = 0 then
          (if mx - target_return = 0 then .nan
           else if 0 < mx - target_return then .pinf else .ninf)
        else
          .val (((mx - target_return : ℚ) : ℝ) /
            Real.sqrt ((var0 (xs.filter (fun x => decide (x < target_return))) : ℚ) : ℝ))

/-- Loop body of `calculate_max_drawdown` (calculations.py lines 66-70):
track the running peak, divide the decline by the peak with numpy scalar
semantics, keep the Python `max`. -/
def mddGo : ℚ → FloatQ → List ℚ → FloatQ
  | _, maxDd, [] => maxDd
  | peak, maxDd, price :: rest =>
    let peak2 := if peak < price then price else peak
    mddGo peak2 (pymax maxDd (npdiv (peak2 - price) peak2)) rest

/-- `calculate_max_drawdown` (calculations.py line 63): single forward pass
with a running peak initialised to the first element; `price_series[0]` on an
empty series raises, modelled as `none`. -/
def calculate_max_drawdown (xs : List ℚ) : Option FloatQ :=
  match xs with
  | [] => none
  | p0 :: _ => some (mddGo p0 (.val 0) xs)

/-- Pearson correlation of two aligned columns, as computed by
`DataFrame.corr`; NaN (`.nan`) when either column is degenerate. -/
noncomputable def pearson (x y : List ℚ) : FloatR :=
  if Real.sqrt ((ssd x : ℚ) : ℝ) * Real.sqrt ((ssd y : ℚ) : ℝ) = 0 then .nan
  else
    .val ((((x.zip y).map
        (fun p => (p.1 - x.sum / x.length) * (p.2 - y.sum / y.length))).sum : ℚ) /
      (Real.sqrt ((ssd x : ℚ) : ℝ) * Real.sqrt ((ssd y : ℚ) : ℝ)))

/-- `calculate_correlation_matrix` (calculations.py line 73): `data.corr()`
over the aligned frame, as a nested association list. -/
noncomputable def calculate_correlation_matrix (frame : List (String × List ℚ)) :
    List (String × List (String × FloatR)) :=
  frame.map (fun c1 => (c1.1, frame.map (fun c2 => (c2.1, pearson c1.2 c2.2))))

/-- The two fields of `src/models/portfolio.py`'s `Asset` that
`_calculate_portfolio_metrics` reads: the ticker symbol and the current
market value. -/
structure Asset where
  symbol : String
  current_value : ℚ
  deriving DecidableEq, Repr

/-- The portfolio-level metrics dictionary built at risk_analyzer.py lines
115-127.  `Option` fields are NaN-able floats (`none` = NaN). -/
structure PortfolioMetrics where
  total_value : ℚ
  volatility : Option ℝ
  sharpe_ratio : Option ℝ
  sortino_ratio : FloatR
  max_drawdown : Option FloatQ
  var_parametric_95 : Option ℝ
  var_historical_95 : Option ℚ
  var_monte_carlo_95 : Option ℚ
  cvar_95 : Option ℚ
  average_return : Option ℚ
  correlation_matrix : List (String × List (String × FloatR))

/-- risk_analyzer.py lines 98-102: the assets whose fetched return series is
non-empty (the keys of `returns_data`, in portfolio order). -/
def includedAssets (assets : List Asset) (data : String → List ℚ) : List Asset :=
  assets.filter (fun a => !(data a.symbol).isEmpty)

/-- risk_analyzer.py line 109: `total_value` sums the current values of
*all* assets of the portfolio, included or not. -/
def totalValueAll (assets : List Asset) : ℚ :=
  (assets.map (fun a => a.current_value)).sum

/-- risk_analyzer.py lines 109-111: one weight per asset present in
`returns_data`, dividing by the all-asset total.  Python float division by a
zero total raises `ZeroDivisionError` (`Except.error`). -/
def portfolioWeights (assets : List Asset) (data : String → List ℚ) : Except Unit (List ℚ) :=
  (includedAssets assets data).mapM
    (fun a =>
      if totalValueAll assets = 0 then Except.error ()
      else Except.ok (a.current_value / totalValueAll assets))

/-- The column labels of `pd.DataFrame(returns_data)`: included symbols in
first-occurrence order (dict keys are unique). -/
def dataColumns (assets : List Asset) (data : String → List ℚ) : List String :=
  ((includedAssets assets data).map (fun a => a.symbol)).eraseDups

/-- Row count of `pd.DataFrame(returns_data).dropna()`: series with default
integer indexes align on the common prefix, so rows survive up to the
shortest column. -/
def alignedLen (cols : List String) (data : String → List ℚ) : ℕ :=
  match cols.map (fun s => (data s).length) with
  | [] => 0
  | l :: ls => ls.foldl min l

/-- The aligned multi-asset frame handed to `calculate_correlation_matrix`. -/
def alignedFrame (cols : List String) (data : String → List ℚ) : List (String × List ℚ) :=
  cols.map (fun s => (s, (data s).take (alignedLen cols data)))

/-- risk_analyzer.py line 113: `(returns_df * weights).sum(axis=1)` — each
column scaled by its positional weight, rows summed. -/
def portfolioReturns (cols : List String) (weights : List ℚ) (data : String → List ℚ) :
    List ℚ :=
  (List.range (alignedLen cols data)).map
    (fun t => ((cols.zip weights).map (fun cw => (data cw.1).getD t 0 * cw.2)).sum)

/-- The `try` block of `_calculate_portfolio_metrics` (risk_analyzer.py
lines 97-127).  `Except.error` is a raised exception: the zero-total
`ZeroDivisionError` from the weight comprehension, or the pandas broadcast
`ValueError` when the weight count differs from the column count (duplicate
symbols).  `Except.ok none` is the explicit `return {}` of the no-data
branch. -/
noncomputable def portfolioMetricsBody (ppf : ℚ → ℝ) (draws : List ℚ) (risk_free_rate : ℚ)
    (assets : List Asset) (data : String → List ℚ) : Except Unit (Option PortfolioMetrics) :=
  if (includedAssets assets data).isEmpty then Except.ok none
  else
    match portfolioWeights assets data with
    | Except.error e => Except.error e
    | Except.ok weights =>
      if weights.length ≠ (dataColumns assets data).length then Except.error ()
      else
        Except.ok (some
          { total_value := totalValueAll assets
            volatility := calculate_volatility
              (portfolioReturns (dataColumns assets data) weights data)
            sharpe_ratio := calculate_sharpe_ratio
              (portfolioReturns (dataColumns assets data) weights data) risk_free_rate
            sortino_ratio := calculate_sortino_ratio
              (portfolioReturns (dataColumns assets data) weights data) risk_free_rate
            max_drawdown := calculate_max_drawdown
              (portfolioReturns (dataColumns assets data) weights data)
            var_parametric_95 := calculate_var_parametric ppf
              (portfolioReturns (dataColumns assets data) weights data) (95 / 100)
            var_historical_95 := calculate_var_historical
              (portfolioReturns (dataColumns assets data) weights data) (95 / 100)
            var_monte_carlo_95 := calculate_var_monte_carlo draws (95 / 100)
            cvar_95 := calculate_cvar
              (portfolioReturns (dataColumns assets data) weights data) (95 / 100)
            average_return := (listMean
              (portfolioReturns (dataColumns assets data) weights data)).map
                (fun m => m * 252)
            correlation_matrix := calculate_correlation_matrix
              (alignedFrame (dataColumns assets data) data) })

/-- `_calculate_portfolio_metrics` (risk_analyzer.py lines 96-131): the
`except Exception` handler turns any raised error into the same empty
dictionary (`none`) the no-data branch returns. -/
noncomputable def _calculate_portfolio_metrics (ppf : ℚ → ℝ) (draws : List ℚ)
    (risk_free_rate : ℚ) (assets : List Asset) (data : String → List ℚ) :
    Option PortfolioMetrics :=
  match portfolioMetricsBody ppf draws risk_free_rate assets data with
  | Except.error _ => none
  | Except.ok r => r

/-- The three entries of the metrics dictionary read by
`_generate_risk_summary` and `_assess_risk_level`; a `none` field is an
absent key (`metrics.get` then supplies the default `0`). -/
structure MetricsD where
  volatility : Option FloatQ
  sharpe_ratio : Option FloatQ
  var_historical_95 : Option FloatQ
  deriving DecidableEq, Repr

/-- `metrics.get(key, 0)`. -/
def pyget (o : Option FloatQ) : FloatQ := o.getD (.val 0)

/-- The textual findings of the risk summary, keeping the numeric payload
and dropping only the string formatting. -/
inductive Finding where
  | highVolatility (v : FloatQ)
  | moderateVolatility (v : FloatQ)
  | goodSharpe (s : FloatQ)
  | poorSharpe (s : FloatQ)
  | var95Loss (v : FloatQ)
  deriving DecidableEq, Repr

/-- The value of `_generate_risk_summary`: either the insufficient-data
status dictionary or a risk level with the ordered findings list. -/
inductive RiskSummary where
  | insufficientData
  | report (risk_level : String) (key_findings : List Finding)
  deriving DecidableEq, Repr

/-- `_assess_risk_level` (risk_analyzer.py lines 160-173). -/
def _assess_risk_level (m : MetricsD) : String :=
  match m with
  | ⟨volO, shO, _⟩ =>
    let s1 : ℕ :=
      if pygt (pyget volO) (.val (30 / 100)) then 3
      else if pygt (pyget volO) (.val (20 / 100)) then 2 else 0
    let s2 : ℕ := if pylt (pyget shO) (.val (1 / 2)) then 2 else 0
    if s1 + s2 ≥ 4 then "HIGH" else if s1 + s2 ≥ 2 then "MODERATE" else "LOW"

/-- `_generate_risk_summary` (risk_analyzer.py lines 133-158); the input is
`none` for the empty metrics dictionary.  Note the `if var_95:` truthiness
test on the fetched VaR value. -/
def _generate_risk_summary (metrics : Option MetricsD) : RiskSummary :=
  match metrics with
  | none => RiskSummary.insufficientData
  | some m =>
    match m with
    | ⟨volO, shO, varO⟩ =>
      let f1 : List Finding :=
        if pygt (pyget volO) (.val (30 / 100)) then [Finding.highVolatility (pyget volO)]
        else if pygt (pyget volO) (.val (15 / 100)) then
          [Finding.moderateVolatility (pyget volO)]
        else []
      let f2 : List Finding :=
        if pygt (pyget shO) (.val 1) then [Finding.goodSharpe (pyget shO)]
        else if pylt (pyget shO) (.val 0) then [Finding.poorSharpe (pyget shO)]
        else []
      let f3 : List Finding :=
        if pytruthy (pyget varO) then [Finding.var95Loss (pyget varO)] else []
      RiskSummary.report (_assess_risk_level m) (f1 ++ f2 ++ f3)

/-- Modelled from the spec: the ordinal risk score of §4.4 — add 3 if
volatility exceeds 0.30, else 2 if it exceeds 0.20; add 2 if Sharpe is below
0.5. -/
def specRiskScore (volatility sharpe : ℚ) : ℕ :=
  (if volatility > 30 / 100 then 3 else if volatility > 20 / 100 then 2 else 0) +
    (if sharpe < 1 / 2 then 2 else 0)

/-- Modelled from the spec: HIGH when the score is at least 4, MODERATE when
at least 2, otherwise LOW. -/
def specRiskLevel (score : ℕ) : String :=
  if score ≥ 4 then "HIGH" else if score ≥ 2 then "MODERATE" else "LOW"

/-- Modelled from the spec: `volatility(returns)` as the *sample* standard
deviation (ddof = 1), NaN when the series has fewer than 2 points (§4.1). -/
noncomputable def specSampleStd (xs : List ℚ) : Option ℝ :=
  if xs.length < 2 then none
  else some (Real.sqrt ((ssd xs / ((xs.length : ℚ) - 1) : ℚ) : ℝ))

/-- Modelled from the spec/amendment: the ordered findings list — volatility
tier (thresholds 0.30 / 0.15), then the Sharpe message, then the VaR-95
message when the value is truthy (present and nonzero). -/
def specFindings (m : MetricsD) : List Finding :=
  (if pygt (pyget m.volatility) (.val (30 / 100)) then
      [Finding.highVolatility (pyget m.volatility)]
    else if pygt (pyget m.volatility) (.val (15 / 100)) then
      [Finding.moderateVolatility (pyget m.volatility)]
    else []) ++
  (if pygt (pyget m.sharpe_ratio) (.val 1) then [Finding.goodSharpe (pyget m.sharpe_ratio)]
    else if pylt (pyget m.sharpe_ratio) (.val 0) then [Finding.poorSharpe (pyget m.sharpe_ratio)]
    else []) ++
  (if pytruthy (pyget m.var_historical_95) then [Finding.var95Loss (pyget m.var_historical_95)]
    else [])

/-- Whether a reachable float is ≥ 0 in the IEEE sense (nan is not). -/
def geZeroF : FloatQ → Bool
  | .nan => false
  | .pinf => true
  | .ninf => false
  | .val q => decide (0 ≤ q)

/-- The three-asset scenario of spec §8 and of the repository's own test
`test_portfolio_metrics_with_missing_data`. -/
def scenAssets : List Asset :=
  [⟨"AAPL", 1700⟩, ⟨"GOOG", 14000⟩, ⟨"BAD", 1000⟩]

/-- The return series of that scenario; BAD has no data. -/
def scenData : String → List ℚ := fun s =>
  if s = "AAPL" then [1/100, 2/100, -1/100, 3/100, 5/1000]
  else if s = "GOOG" then [2/100, 1/100, 1/100, -2/100, 15/1000]
  else []

/-- A portfolio whose single included asset has value 0 (zero total value
with a non-empty included set). -/
def zeroAssets : List Asset := [⟨"Z", 0⟩]

/-- Return data for `zeroAssets`: a non-empty series for Z. -/
def zeroData : String → List ℚ := fun s => if s = "Z" then [1/100, 2/100] else []

/-- A portfolio none of whose assets has any return data. -/
def noDataAssets : List Asset := [⟨"N", 5⟩]

/-- Return data for `noDataAssets`: empty everywhere. -/
def noDataData : String → List ℚ := fun _ => []

/-- A trivial stand-in for the inverse normal CDF, used to instantiate the
`ppf` parameter in closed statements. -/
def ppf0 : ℚ → ℝ := fun _ => 0


/-! ## Theorems -/

lemma except_bind_ok {α β ε : Type} (a : α) (f : α → Except ε β) :
    (Except.ok a : Except ε α) >>= f = f a := rfl

lemma calc_none_of_noData (ppf : ℚ → ℝ) (draws : List ℚ) (rf : ℚ) (assets : List Asset)
    (data : String → List ℚ) (h : includedAssets assets data = []) :
    _calculate_portfolio_metrics ppf draws rf assets data = none := by
  unfold _calculate_portfolio_metrics portfolioMetricsBody
  rw [h]
  rfl

lemma calc_none_of_zeroTotal (ppf : ℚ → ℝ) (draws : List ℚ) (rf : ℚ) (assets : List Asset)
    (data : String → List ℚ) (h : totalValueAll assets = 0) :
    _calculate_portfolio_metrics ppf draws rf assets data = none := by
  unfold _calculate_portfolio_metrics portfolioMetricsBody
  cases hI : includedAssets assets data with
  | nil => rfl
  | cons a t =>
    have hw : portfolioWeights assets data = Except.error () := by
      unfold portfolioWeights
      rw [hI]
      simp only [h]
      rfl
    rw [hw]
    rfl

lemma scen_weights : portfolioWeights scenAssets scenData = Except.ok [17/167, 140/167] := by
  have h_inc : includedAssets scenAssets scenData = [⟨"AAPL", 1700⟩, ⟨"GOOG", 14000⟩] := rfl
  have h_total : totalValueAll scenAssets = 16700 := by norm_num [totalValueAll, scenAssets]
  rw [portfolioWeights, h_inc]
  simp only [h_total]
  norm_num [List.mapM, List.mapM.loop, except_bind_ok]

/-- C1: at the spec/test scenario (AAPL 1700, GOOG 14000, BAD 1000 with no
returns), the aggregation reports total_value 16700 — the sum over *every*
asset — while the claim, spec §8 and the repository's own test
`test_portfolio_metrics_with_missing_data` require 15700, the sum over the
included assets only. -/
theorem c1_total_value_eval : ∀ (ppf : ℚ → ℝ) (draws : List ℚ) (rf : ℚ),
    Option.map (fun m => m.total_value)
      (_calculate_portfolio_metrics ppf draws rf scenAssets scenData) = some 16700 ∧
    (16700 : ℚ) ≠ 15700 := by
  intro ppf draws rf
  refine ⟨?_, by norm_num⟩
  have h_total : totalValueAll scenAssets = 16700 := by norm_num [totalValueAll, scenAssets]
  have h_empty : (includedAssets scenAssets scenData).isEmpty = false := rfl
  have h_cols : dataColumns scenAssets scenData = ["AAPL", "GOOG"] := rfl
  have h_len :
      ¬(([17/167, 140/167] : List ℚ).length ≠ (dataColumns scenAssets scenData).length) := by
    simp [h_cols]
  rw [_calculate_portfolio_metrics, portfolioMetricsBody, h_empty]
  simp only [Bool.false_eq_true, if_false, scen_weights, if_neg h_len, h_total,
    Option.map_some']

/-- C2: at the same scenario the aggregation weights of the two included
assets are 1700/16700 and 14000/16700; they sum to 157/167 ≈ 0.94, not 1,
because the denominator still counts the excluded asset BAD. -/
theorem c2_weights_eval :
    portfolioWeights scenAssets scenData = Except.ok [17/167, 140/167] ∧
    ([(17 : ℚ)/167, 140/167].sum = 157/167 ∧ (157 : ℚ)/167 ≠ 1) :=
  ⟨scen_weights, by norm_num, by norm_num⟩

/-- C3 (counterexample): a zero-total portfolio with a non-empty included
set produces exactly the same caller-visible result (the empty dictionary,
`none`) as a portfolio with no return data at all, so the zero-total failure
is not reported distinguishably to the caller. -/
theorem c3_counterexample :
    _calculate_portfolio_metrics ppf0 [] 0 zeroAssets zeroData = none ∧
    _calculate_portfolio_metrics ppf0 [] 0 noDataAssets noDataData = none := by
  constructor
  · exact calc_none_of_zeroTotal ppf0 [] 0 zeroAssets zeroData
      (by norm_num [totalValueAll, zeroAssets])
  · exact calc_none_of_noData ppf0 [] 0 noDataAssets noDataData (by decide)

/-- C3 (amended): when the included set is non-empty and total_value is 0,
the `ZeroDivisionError` raised while building the weights is caught by the
blanket `except` handler, and the caller receives the empty dictionary —
identical to the result for any portfolio with no data at all. -/
theorem c3_zero_total_amended (ppf : ℚ → ℝ) (draws : List ℚ) (rf : ℚ) (assets : List Asset)
    (data : String → List ℚ) (hne : includedAssets assets data ≠ [])
    (h0 : totalValueAll assets = 0) :
    _calculate_portfolio_metrics ppf draws rf assets data = none ∧
    ∀ (assets2 : List Asset) (data2 : String → List ℚ),
      includedAssets assets2 data2 = [] →
      _calculate_portfolio_metrics ppf draws rf assets data =
        _calculate_portfolio_metrics ppf draws rf assets2 data2 := by
  refine ⟨calc_none_of_zeroTotal ppf draws rf assets data h0, ?_⟩
  intro assets2 data2 h2
  rw [calc_none_of_zeroTotal ppf draws rf assets data h0,
    calc_none_of_noData ppf draws rf assets2 data2 h2]

/-- C3 amended witness: the concrete zero-total portfolio. -/
theorem c3_zero_total_amended_witness :
    (includedAssets zeroAssets zeroData ≠ [] ∧ totalValueAll zeroAssets = 0) ∧
    (_calculate_portfolio_metrics ppf0 [] 0 zeroAssets zeroData = none ∧
      ∀ (assets2 : List Asset) (data2 : String → List ℚ),
        includedAssets assets2 data2 = [] →
        _calculate_portfolio_metrics ppf0 [] 0 zeroAssets zeroData =
          _calculate_portfolio_metrics ppf0 [] 0 assets2 data2) :=
  ⟨⟨by decide, by norm_num [totalValueAll, zeroAssets]⟩,
    c3_zero_total_amended ppf0 [] 0 zeroAssets zeroData (by decide)
      (by norm_num [totalValueAll, zeroAssets])⟩

/-- C10: the portfolio-metrics computation never lets a failure escape: both
the no-data case and the zero-total-value case (an internal
`ZeroDivisionError`) return the same empty dictionary, and the risk summary
of the empty dictionary is exactly the insufficient-data status. -/
theorem c10_exception_folding (ppf : ℚ → ℝ) (draws : List ℚ) (rf : ℚ) (assets : List Asset)
    (data : String → List ℚ)
    (h : includedAssets assets data = [] ∨ totalValueAll assets = 0) :
    _calculate_portfolio_metrics ppf draws rf assets data = none ∧
    _generate_risk_summary none = RiskSummary.insufficientData := by
  rcases h with h | h
  · exact ⟨calc_none_of_noData ppf draws rf assets data h, rfl⟩
  · exact ⟨calc_none_of_zeroTotal ppf draws rf assets data h, rfl⟩

/-- C10 witness: the zero-total portfolio. -/
theorem c10_exception_folding_witness :
    (includedAssets zeroAssets zeroData = [] ∨ totalValueAll zeroAssets = 0) ∧
    (_calculate_portfolio_metrics ppf0 [] 0 zeroAssets zeroData = none ∧
      _generate_risk_summary none = RiskSummary.insufficientData) :=
  ⟨Or.inr (by norm_num [totalValueAll, zeroAssets]),
    c10_exception_folding ppf0 [] 0 zeroAssets zeroData
      (Or.inr (by norm_num [totalValueAll, zeroAssets]))⟩

/-- C5 (counterexample): a metrics dictionary whose VaR-95 value is present
and equal to 0 produces no VaR finding — `if var_95:` is falsy at 0.0 — so
the VaR message is not included "whenever a value is present, including 0". -/
theorem c5_counterexample :
    _generate_risk_summary (some ⟨some (.val (2/10)), some (.val (1/2)), some (.val 0)⟩) =
      RiskSummary.report "LOW" [Finding.moderateVolatility (.val (2/10))] ∧
    Finding.var95Loss (.val 0) ∉ [Finding.moderateVolatility (FloatQ.val (2/10))] := by
  constructor
  · norm_num [_generate_risk_summary, _assess_risk_level, pyget, pygt, pylt, pytruthy]
  · simp

/-- C5 (amended): for every non-empty metrics dictionary the findings are
produced in the fixed order volatility-tier (> 0.30 high, > 0.15 moderate),
then the Sharpe message (> 1.0 good, < 0 poor), then the VaR-95 message
whenever the fetched value is truthy (present and nonzero). -/
theorem c5_finding_order : ∀ m : MetricsD,
    _generate_risk_summary (some m) =
      RiskSummary.report (_assess_risk_level m) (specFindings m) := by
  intro m
  cases m
  rfl

/-- C6: the risk level agrees with the spec's ordinal score — +3 for
volatility > 0.30, else +2 for > 0.20, +2 for Sharpe < 0.5; HIGH at score
≥ 4, MODERATE at ≥ 2, else LOW — and volatility 0.35 with Sharpe 0.3 scores
5 and classifies HIGH. -/
theorem c6_risk_level :
    (∀ v s : ℚ, _assess_risk_level ⟨some (.val v), some (.val s), none⟩ =
      specRiskLevel (specRiskScore v s)) ∧
    _assess_risk_level ⟨some (.val (35/100)), some (.val (3/10)), none⟩ = "HIGH" ∧
    specRiskScore (35/100) (3/10) = 5 := by
  refine ⟨?_, ?_, ?_⟩
  · intro v s
    by_cases h1 : (30:ℚ)/100 < v <;> by_cases h2 : (20:ℚ)/100 < v <;> by_cases h3 : s < 1/2 <;>
      simp [_assess_risk_level, specRiskLevel, specRiskScore, pyget, pygt, pylt, h1, h2, h3]
  · norm_num [_assess_risk_level, pyget, pygt, pylt]
  · norm_num [specRiskScore]

/-- C9: when the metrics dictionary has no sharpe_ratio entry, the default 0
satisfies the Sharpe rule (0 < 0.5 adds 2), so the score is at least 2 and
the level is never LOW, whatever the volatility entry holds. -/
theorem c9_no_sharpe_never_low : ∀ (volO varO : Option FloatQ),
    _assess_risk_level ⟨volO, none, varO⟩ = "MODERATE" ∨
    _assess_risk_level ⟨volO, none, varO⟩ = "HIGH" := by
  intro volO varO
  have h3 : pylt (pyget (none : Option FloatQ)) (FloatQ.val (1/2)) = true := by
    norm_num [pylt, pygt, pyget]
  simp only [_assess_risk_level]
  cases hb1 : pygt (pyget volO) (FloatQ.val (30/100)) <;>
    cases hb2 : pygt (pyget volO) (FloatQ.val (20/100)) <;>
      simp only [hb1, hb2, h3] <;> norm_num

lemma ssd_nonneg (xs : List ℚ) : 0 ≤ ssd xs := by
  unfold ssd
  apply List.sum_nonneg
  intro x hx
  obtain ⟨y, _, rfl⟩ := List.mem_map.mp hx
  positivity

lemma var0_nonneg (xs : List ℚ) : 0 ≤ var0 xs :=
  div_nonneg (ssd_nonneg xs) (by positivity)

/-- C4 (counterexample): the single-point series [5] yields volatility 0,
not NaN, and on [1, 2] the code's value (the population standard deviation
1/2) differs from the spec's sample standard deviation (√(1/2)). -/
theorem c4_counterexample :
    calculate_volatility [5] = some 0 ∧
    calculate_volatility [1, 2] ≠ specSampleStd [1, 2] := by
  constructor
  · have h : var0 [5] = 0 := by norm_num [var0, ssd]
    simp [calculate_volatility, h]
  · have h1 : var0 [1, 2] = 1/4 := by norm_num [var0, ssd]
    have h2 : ssd [1, 2] = 1/2 := by norm_num [ssd]
    intro hEq
    simp only [calculate_volatility, specSampleStd] at hEq
    norm_num [h1, h2] at hEq

/-- C4 (amended): volatility is the population (ddof = 0) standard
deviation: NaN only on the empty series, 0 on every single-point series, and
for every non-empty series it is the nonnegative square root of the squared
deviations divided by n (not n − 1). -/
theorem c4_population_std :
    calculate_volatility [] = none ∧
    (∀ x : ℚ, calculate_volatility [x] = some 0) ∧
    (∀ xs : List ℚ, xs ≠ [] → ∃ v : ℝ, calculate_volatility xs = some v ∧ 0 ≤ v ∧
      v ^ 2 = ((ssd xs : ℚ) : ℝ) / (xs.length : ℝ)) := by
  refine ⟨rfl, ?_, ?_⟩
  · intro x
    have h : var0 [x] = 0 := by
      field_simp [var0, ssd]
    simp [calculate_volatility, h]
  · intro xs h
    refine ⟨Real.sqrt ((var0 xs : ℚ) : ℝ), by simp [calculate_volatility, h],
      Real.sqrt_nonneg _, ?_⟩
    rw [Real.sq_sqrt (by exact_mod_cast var0_nonneg xs)]
    rw [var0]
    push_cast
    ring

/-- C4 amended witness: the series [1, 2]. -/
theorem c4_population_std_witness :
    (([1, 2] : List ℚ) ≠ []) ∧
    (∃ v : ℝ, calculate_volatility [1, 2] = some v ∧ 0 ≤ v ∧
      v ^ 2 = ((ssd [1, 2] : ℚ) : ℝ) / (([1, 2] : List ℚ).length : ℝ)) :=
  ⟨by simp, c4_population_std.2.2 [1, 2] (by simp)⟩

lemma pinterp_ge (s : List ℚ) (rank : ℚ) (hs : s.Sorted (· ≤ ·)) (h0 : 0 ≤ rank)
    (h1 : rank ≤ (s.length : ℚ) - 1) : ∃ m, m ∈ s ∧ m ≤ pinterp s rank := by
  have hfl : (0:ℤ) ≤ ⌊rank⌋ := Int.floor_nonneg.mpr h0
  have hlen1 : 1 ≤ s.length := by
    by_contra hc
    push_neg at hc
    have h2 : s.length = 0 := by omega
    rw [h2] at h1
    norm_num at h1
    linarith
  have hiq : ((⌊rank⌋.toNat : ℕ) : ℚ) ≤ rank := by
    calc ((⌊rank⌋.toNat : ℕ) : ℚ) = ((⌊rank⌋ : ℤ) : ℚ) := by
          exact_mod_cast Int.toNat_of_nonneg hfl
      _ ≤ rank := Int.floor_le rank
  have hilt : ⌊rank⌋.toNat < s.length := by
    have h2 : ⌊rank⌋ ≤ (s.length : ℤ) - 1 := by
      calc ⌊rank⌋ ≤ ⌊(s.length : ℚ) - 1⌋ := Int.floor_le_floor h1
        _ = (s.length : ℤ) - 1 := by
            rw [show ((s.length : ℚ) - 1) = (((s.length : ℤ) - 1 : ℤ) : ℚ) by push_cast; ring,
              Int.floor_intCast]
    omega
  have hg : 0 ≤ rank - (⌊rank⌋.toNat : ℚ) := sub_nonneg.mpr hiq
  have hlo : s.getD ⌊rank⌋.toNat 0 = s.get ⟨⌊rank⌋.toNat, hilt⟩ :=
    List.getD_eq_getElem s 0 hilt
  refine ⟨s.get ⟨⌊rank⌋.toNat, hilt⟩, List.get_mem s ⌊rank⌋.toNat hilt, ?_⟩
  unfold pinterp
  rw [hlo]
  by_cases hsucc : ⌊rank⌋.toNat + 1 < s.length
  · have hhi : s.getD (⌊rank⌋.toNat + 1) (s.get ⟨⌊rank⌋.toNat, hilt⟩) =
        s.get ⟨⌊rank⌋.toNat + 1, hsucc⟩ :=
      List.getD_eq_getElem s _ hsucc
    rw [hhi]
    have hmono : s.get ⟨⌊rank⌋.toNat, hilt⟩ ≤ s.get ⟨⌊rank⌋.toNat + 1, hsucc⟩ :=
      hs.rel_get_of_lt (by simp [Fin.lt_def])
    have hprod : 0 ≤ (rank - (⌊rank⌋.toNat : ℚ)) *
        (s.get ⟨⌊rank⌋.toNat + 1, hsucc⟩ - s.get ⟨⌊rank⌋.toNat, hilt⟩) :=
      mul_nonneg hg (sub_nonneg.mpr hmono)
    linarith
  · have hhi : s.getD (⌊rank⌋.toNat + 1) (s.get ⟨⌊rank⌋.toNat, hilt⟩) =
        s.get ⟨⌊rank⌋.toNat, hilt⟩ :=
      List.getD_eq_default s _ (by omega)
    rw [hhi]
    simp

lemma percentile_some (xs : List ℚ) (p : ℚ) (hne : xs ≠ []) (h0 : 0 ≤ p) (h1 : p ≤ 100) :
    ∃ v, percentile xs p = some v ∧ ∃ m, m ∈ xs ∧ m ≤ v := by
  have hsorted : (xs.insertionSort (fun a b => a ≤ b)).Sorted (· ≤ ·) :=
    List.sorted_insertionSort _ xs
  have hlen : (xs.insertionSort (fun a b => a ≤ b)).length = xs.length :=
    List.length_insertionSort _ xs
  have hx1 : 1 ≤ xs.length := List.length_pos.mpr hne
  have hnn : (0:ℚ) ≤ (xs.length : ℚ) - 1 := by
    have h2 : (1:ℚ) ≤ (xs.length : ℚ) := by exact_mod_cast hx1
    linarith
  have hr0 : 0 ≤ p / 100 * ((xs.length : ℚ) - 1) :=
    mul_nonneg (div_nonneg h0 (by norm_num)) hnn
  have hr1 : p / 100 * ((xs.length : ℚ) - 1) ≤
      ((xs.insertionSort (fun a b => a ≤ b)).length : ℚ) - 1 := by
    rw [hlen]
    have hp : p / 100 ≤ 1 := (div_le_one (by norm_num)).mpr h1
    calc p / 100 * ((xs.length : ℚ) - 1) ≤ 1 * ((xs.length : ℚ) - 1) :=
          mul_le_mul_of_nonneg_right hp hnn
      _ = (xs.length : ℚ) - 1 := one_mul _
  obtain ⟨m, hm, hle⟩ := pinterp_ge _ _ hsorted hr0 hr1
  refine ⟨pinterp (xs.insertionSort (fun a b => a ≤ b)) (p / 100 * ((xs.length : ℚ) - 1)),
    ?_, m, ?_, hle⟩
  · unfold percentile
    rw [if_neg hne]
  · exact (List.mem_insertionSort _).mp hm

lemma listSum_le (l : List ℚ) (v : ℚ) (h : ∀ x ∈ l, x ≤ v) : l.sum ≤ l.length * v := by
  induction l with
  | nil => simp
  | cons a t ih =>
    have ha := h a (List.mem_cons_self a t)
    have ht := ih (fun x hx => h x (List.mem_cons_of_mem a hx))
    simp only [List.sum_cons, List.length_cons]
    push_cast
    nlinarith

lemma listMean_le (l : List ℚ) (v : ℚ) (hne : l ≠ []) (h : ∀ x ∈ l, x ≤ v) :
    ∃ c, listMean l = some c ∧ c ≤ v := by
  refine ⟨l.sum / l.length, by simp [listMean, hne], ?_⟩
  have hlen : (0:ℚ) < l.length := by exact_mod_cast List.length_pos.mpr hne
  rw [div_le_iff₀ hlen]
  calc l.sum ≤ l.length * v := listSum_le l v h
    _ = v * l.length := mul_comm _ _

/-- C7: for every non-empty series and confidence in [0, 1], the historical
VaR exists, the CVaR exists (the selection at or below the threshold is
never empty, so no NaN), and CVaR ≤ VaR. -/
theorem c7_cvar_le_var (xs : List ℚ) (confidence_level : ℚ) (hne : xs ≠ [])
    (h0 : 0 ≤ confidence_level) (h1 : confidence_level ≤ 1) :
    ∃ v c, calculate_var_historical xs confidence_level = some v ∧
      calculate_cvar xs confidence_level = some c ∧ c ≤ v := by
  have hp0 : 0 ≤ (1 - confidence_level) * 100 := by nlinarith
  have hp1 : (1 - confidence_level) * 100 ≤ 100 := by nlinarith
  obtain ⟨v, hv, m, hm, hmv⟩ := percentile_some xs _ hne hp0 hp1
  have hvh : calculate_var_historical xs confidence_level = some v := hv
  have hmF : m ∈ xs.filter (fun x => decide (x ≤ v)) :=
    List.mem_filter.mpr ⟨hm, by simpa using hmv⟩
  have hFne : xs.filter (fun x => decide (x ≤ v)) ≠ [] := List.ne_nil_of_mem hmF
  have hall : ∀ x ∈ xs.filter (fun x => decide (x ≤ v)), x ≤ v := by
    intro x hx
    simpa using (List.mem_filter.mp hx).2
  obtain ⟨c, hc, hcv⟩ := listMean_le _ v hFne hall
  refine ⟨v, c, hvh, ?_, hcv⟩
  unfold calculate_cvar
  rw [hvh]
  exact hc

/-- C7 witness: the series [1, 2, 3] at confidence 0.95. -/
theorem c7_cvar_le_var_witness :
    (([1, 2, 3] : List ℚ) ≠ [] ∧ (0:ℚ) ≤ 95/100 ∧ (95:ℚ)/100 ≤ 1) ∧
    (∃ v c, calculate_var_historical [1, 2, 3] (95/100) = some v ∧
      calculate_cvar [1, 2, 3] (95/100) = some c ∧ c ≤ v) :=
  ⟨⟨by simp, by norm_num, by norm_num⟩,
    c7_cvar_le_var [1, 2, 3] (95/100) (by simp) (by norm_num) (by norm_num)⟩

lemma pymax_dd_inv (m : FloatQ) (num den : ℚ) (hnum : 0 ≤ num)
    (hm : m = .pinf ∨ ∃ q, m = .val q ∧ 0 ≤ q) :
    pymax m (npdiv num den) = .pinf ∨ ∃ q, pymax m (npdiv num den) = .val q ∧ 0 ≤ q := by
  rcases hm with hm | ⟨q, hm, hq⟩ <;> subst hm
  · left
    have h : pygt (npdiv num den) .pinf = false := by
      unfold npdiv
      split_ifs <;> rfl
    simp [pymax, h]
  · unfold npdiv
    by_cases hden : den = 0
    · rw [if_pos hden]
      by_cases hz : num = 0
      · rw [if_pos hz]
        right
        exact ⟨q, by simp [pymax, pygt], hq⟩
      · rw [if_neg hz, if_pos (lt_of_le_of_ne hnum (Ne.symm hz))]
        left
        simp [pymax, pygt]
    · rw [if_neg hden]
      right
      cases hsel : pygt (FloatQ.val (num / den)) (FloatQ.val q) with
      | true =>
        refine ⟨num / den, by simp [pymax, hsel], ?_⟩
        have hlt : q < num / den := by
          have h2 := hsel
          simp only [pygt, decide_eq_true_eq] at h2
          exact h2
        linarith
      | false =>
        exact ⟨q, by simp [pymax, hsel], hq⟩

lemma mddGo_inv (xs : List ℚ) : ∀ (peak : ℚ) (m : FloatQ),
    (m = .pinf ∨ ∃ q, m = .val q ∧ 0 ≤ q) →
    (mddGo peak m xs = .pinf ∨ ∃ q, mddGo peak m xs = .val q ∧ 0 ≤ q) := by
  induction xs with
  | nil => intro peak m hm; simpa [mddGo] using hm
  | cons price rest ih =>
    intro peak m hm
    simp only [mddGo]
    apply ih
    apply pymax_dd_inv m _ _ _ hm
    by_cases h : peak < price
    · simp [h]
    · simp only [if_neg h]
      have h2 := not_lt.mp h
      linarith

lemma mddGo_sorted (xs : List ℚ) : List.Chain' (· ≤ ·) xs →
    ∀ peak : ℚ, (∀ y ∈ xs.head?, peak ≤ y) → mddGo peak (.val 0) xs = .val 0 := by
  induction xs with
  | nil => intro _ peak _; rfl
  | cons price rest ih =>
    intro hch peak hhd
    have hpk : peak ≤ price := hhd price rfl
    rw [List.chain'_cons'] at hch
    obtain ⟨hhd2, hch2⟩ := hch
    simp only [mddGo]
    have hpeak2 : (if peak < price then price else peak) = price := by
      by_cases h : peak < price
      · simp [h]
      · rw [if_neg h]
        exact le_antisymm hpk (not_lt.mp h)
    rw [hpeak2, sub_self]
    have hdd : pymax (.val 0) (npdiv 0 price) = FloatQ.val 0 := by
      unfold npdiv
      by_cases hz : price = 0
      · rw [if_pos hz, if_pos rfl]
        rfl
      · rw [if_neg hz, zero_div]
        simp [pymax, pygt]
    rw [hdd]
    exact ih hch2 price hhd2

/-- C8: on every non-empty series the single forward pass with a running
peak yields a value (with numpy scalar semantics a zero peak produces
nan/inf drawdown values, never an exception, and Python's max never selects
nan); the result is ≥ 0 (possibly +inf), and it is exactly 0 on every
non-decreasing series. -/
theorem c8_max_drawdown (xs : List ℚ) (hne : xs ≠ []) :
    ∃ d, calculate_max_drawdown xs = some d ∧ geZeroF d = true ∧
      (List.Chain' (· ≤ ·) xs → d = FloatQ.val 0) := by
  cases xs with
  | nil => exact absurd rfl hne
  | cons p0 rest =>
    refine ⟨mddGo p0 (.val 0) (p0 :: rest), rfl, ?_, ?_⟩
    · rcases mddGo_inv (p0 :: rest) p0 (.val 0) (Or.inr ⟨0, rfl, le_refl 0⟩) with h | ⟨q, h, hq⟩
      · rw [h]; rfl
      · rw [h]
        simpa [geZeroF] using hq
    · intro hch
      exact mddGo_sorted (p0 :: rest) hch p0 (by intro y hy; cases hy; exact le_refl p0)

/-- C8 witness: the series [2, 1]. -/
theorem c8_max_drawdown_witness :
    (([2, 1] : List ℚ) ≠ []) ∧
    (∃ d, calculate_max_drawdown [2, 1] = some d ∧ geZeroF d = true ∧
      (List.Chain' (· ≤ ·) ([2, 1] : List ℚ) → d = FloatQ.val 0)) :=
  ⟨by simp, c8_max_drawdown [2, 1] (by simp)⟩
